import Mathlib

/-!
# Verification of the claude-flow SQLite→PostgreSQL migration and PostgreSQL memory backend

Shallow embedding of:
* `src/unnamed/part_000` — `SQLiteToPostgreSQLMigrator` (migrate, migrateBatch,
  validateEntry, convertEntry, insertBatch, verifyMigration, verifySampleEntries,
  createPostgreSQLTables);
* `src/src/memory/backends/postgresql.ts` — `PostgreSQLBackend` (store, update,
  query, getAllEntries).

Modelling conventions:
* JSON-bearing row fields (`context`, `tags`, `metadata`) are modelled in their
  post-`JSON.parse` structured form (association lists / string lists); the
  claims under verification never depend on a JSON-text parse failure.
* JS truthiness of the guard `if (x)` is modelled per type: a string is falsy
  iff empty, a number iff zero, `undefined`/`null` is falsy, and object values
  (`Date`, arrays, plain objects) are always truthy.
* Timestamps are naturals (milliseconds since epoch); wall-clock `duration` is
  modelled as 0 (no claim concerns it).
* External I/O failures (page fetch, batch upsert, COUNT probes, per-sample
  SELECT) are injected through an explicit environment of boolean oracles; the
  TypeScript `throw`/`catch` control flow is translated to `Except`.
-/

namespace ClaudeFlow

/-- Canonical `MemoryEntry` (utils/types.js), as produced by `convertEntry` /
`rowToEntry` and stored in `claude_flow_graph.memory_entries`. -/
structure MemoryEntry where
  id : String
  agentId : String
  sessionId : String
  type : String
  content : String
  context : List (String × String)
  timestamp : Nat
  tags : List String
  version : Nat
  parentId : Option String
  metadata : Option (List (String × String))
deriving DecidableEq, Repr

/-- A raw SQLite row of `memory_entries` (snake_case columns), with JSON fields
already in structured form. A missing text column is the empty string; a
missing timestamp is 0 (both are exactly the JS-falsy values the code tests). -/
structure RawRow where
  id : String
  agent_id : String
  session_id : String
  type : String
  content : String
  context : List (String × String)
  timestamp : Nat
  tags : List String
  version : Nat
  parent_id : Option String
  metadata : Option (List (String × String))
deriving DecidableEq, Repr

/-- `validateEntry` (part_000 lines 286–294): throws when any of
`id, agent_id, session_id, type, content` is falsy, then when `timestamp` is falsy. -/
def validateEntry (row : RawRow) : Except String Unit :=
  if row.id.isEmpty || row.agent_id.isEmpty || row.session_id.isEmpty
      || row.type.isEmpty || row.content.isEmpty then
    .error "Missing required fields"
  else if row.timestamp == 0 then
    .error "Missing timestamp"
  else
    .ok ()

/-- `validateEntry` succeeds. -/
def validB (row : RawRow) : Bool :=
  (validateEntry row).toOption.isSome

/-- `convertEntry` (part_000 lines 296–314): validate, then build the canonical
entry; `version` defaults to 1 when falsy; `parentId`/`metadata` are included
only when truthy. -/
def convertEntry (row : RawRow) : Except String MemoryEntry :=
  match validateEntry row with
  | .error e => .error e
  | .ok _ =>
    .ok {
      id := row.id
      agentId := row.agent_id
      sessionId := row.session_id
      type := row.type
      content := row.content
      context := row.context
      timestamp := row.timestamp
      tags := row.tags
      version := if row.version == 0 then 1 else row.version
      parentId := match row.parent_id with
        | some p => if p.isEmpty then none else some p
        | none => none
      metadata := row.metadata
    }

/-- The PostgreSQL database state: the `claude_flow_graph.memory_entries` table
(as a row list) plus a count of executed schema-DDL statements (`CREATE ... IF
NOT EXISTS` is idempotent on the data, but we track that DDL ran at all). -/
structure PgDb where
  table : List MemoryEntry
  ddlRuns : Nat
deriving DecidableEq, Repr

/-- `createPostgreSQLTables` (part_000 lines 239–284): idempotent DDL —
data unchanged, DDL execution recorded. -/
def createPostgreSQLTables (db : PgDb) : PgDb :=
  { db with ddlRuns := db.ddlRuns + 1 }

/-- One `VALUES` row of the `INSERT ... ON CONFLICT (id) DO UPDATE` upsert:
if a row with the same id exists it is overwritten in place, otherwise the row
is appended. -/
def upsertOne (tbl : List MemoryEntry) (e : MemoryEntry) : List MemoryEntry :=
  if tbl.any (fun x => x.id == e.id) then
    tbl.map (fun x => if x.id == e.id then e else x)
  else
    tbl ++ [e]

/-- `insertBatch` (part_000 lines 316–365): a single multi-row upsert statement;
rows take effect in parameter order. -/
def insertBatch (db : PgDb) (entries : List MemoryEntry) : PgDb :=
  { db with table := entries.foldl upsertOne db.table }

/-- Migrator state: `initialized` models `sqliteDb` and `pgPool` both being
present; `source` is the SQLite `memory_entries` table already in `ORDER BY
timestamp` order (the order both `migrate` and `verifySampleEntries` read it in). -/
structure MigratorState where
  initialized : Bool
  source : List RawRow
  target : PgDb
  batchSize : Nat
deriving Repr

/-- Environment of I/O failure oracles: which page fetches succeed (indexed by
batch number), which batch upserts succeed, whether the various COUNT probes
succeed, and which per-sample SELECTs succeed during verification. -/
structure Env where
  fetchOk : Nat → Bool
  writeOk : Nat → Bool
  runCountOk : Bool
  ddlOk : Bool
  srcCountOk : Bool
  pgCountOk : Bool
  sampleFetchOk : Bool
  sampleLookupOk : Nat → Bool

/-- The per-batch slice of `MigrationStats`
(`Omit<MigrationStats, 'totalEntries' | 'duration'>`). -/
structure BatchTotals where
  migratedEntries : Nat
  skippedEntries : Nat
  errors : Nat
deriving DecidableEq, Repr

def BatchTotals.add (a b : BatchTotals) : BatchTotals :=
  ⟨a.migratedEntries + b.migratedEntries, a.skippedEntries + b.skippedEntries,
    a.errors + b.errors⟩

def BatchTotals.sum (s : BatchTotals) : Nat :=
  s.migratedEntries + s.skippedEntries + s.errors

/-- `MigrationStats` (part_000 lines 14–20). -/
structure MigrationStats where
  totalEntries : Nat
  migratedEntries : Nat
  skippedEntries : Nat
  errors : Nat
  duration : Nat
deriving DecidableEq, Repr

/-- Errors raised by the migrator. `MemoryError('Migration failed', { error })`
carries only the wrapped cause — note it has no statistics payload. -/
inductive MErr where
  | notInitialized : MErr
  | migrationFailed (cause : String) : MErr
  | driverError (msg : String) : MErr
deriving DecidableEq, Repr

/-- The dry-run per-row accounting step of `migrateBatch`: a row passing
`validateEntry` increments `migratedEntries`, a failing one `skippedEntries`. -/
def dryStep (s : BatchTotals) (r : RawRow) : BatchTotals :=
  if validB r then { s with migratedEntries := s.migratedEntries + 1 }
  else { s with skippedEntries := s.skippedEntries + 1 }

/-- `migrateBatch` (part_000 lines 188–237). Dry run: validate each row,
counting successes as migrated and failures as skipped, touching nothing.
Live: convert each row (failures are skipped and excluded from the write set),
then issue one multi-row upsert for the survivors; on write success all
survivors count as migrated, on write failure all survivors count as errors. -/
def migrateBatch (batch : List RawRow) (dryRun : Bool) (writeOk : Bool)
    (db : PgDb) : BatchTotals × PgDb :=
  if dryRun then
    (batch.foldl dryStep ⟨0, 0, 0⟩, db)
  else
    let pgEntries := batch.filterMap (fun r => (convertEntry r).toOption)
    let skipped := batch.countP (fun r => ((convertEntry r).toOption).isNone)
    if pgEntries.isEmpty then
      (⟨0, skipped, 0⟩, db)
    else if writeOk then
      (⟨pgEntries.length, skipped, 0⟩, insertBatch db pgEntries)
    else
      (⟨0, skipped, pgEntries.length⟩, db)

/-- The batched `while (offset < totalEntries)` loop of `migrate`
(part_000 lines 124–143). The third component of the result is the ghost trace
of processed batch sizes (one entry per executed `migrateBatch`). A failing
page fetch aborts the loop with the cause; an empty page breaks. -/
def migrateLoop (env : Env) (src : List RawRow) (dryRun : Bool) (batchSize : Nat)
    (offset i : Nat) (acc : BatchTotals) (db : PgDb) :
    Except String BatchTotals × PgDb × List Nat :=
  if h : offset < src.length then
    if env.fetchOk i then
      if hb : ((src.drop offset).take batchSize).isEmpty then
        (.ok acc, db, [])
      else
        let batch := (src.drop offset).take batchSize
        let r := migrateBatch batch dryRun (env.writeOk i) db
        let rest := migrateLoop env src dryRun batchSize (offset + batchSize)
          (i + 1) (acc.add r.1) r.2
        (rest.1, rest.2.1, batch.length :: rest.2.2)
    else
      (.error "page fetch failed", db, [])
  else
    (.ok acc, db, [])
termination_by src.length - offset
decreasing_by
  have hbs : 0 < batchSize := by
    by_contra hc
    rw [Nat.le_zero.mp (Nat.not_lt.mp hc)] at hb
    simp at hb
  omega

/-- `migrate` (part_000 lines 89–153): initialization check, COUNT probe,
early return on empty source, schema DDL unless dry run, then the batch loop;
a loop-level failure is wrapped as `MemoryError('Migration failed', {error})`.
Returns the (possibly failed) stats, the final target database (already-written
batches stay committed), and the ghost batch-size trace. -/
def migrate (env : Env) (st : MigratorState) (dryRun : Bool) :
    Except MErr MigrationStats × PgDb × List Nat :=
  if st.initialized then
    if env.runCountOk then
      let total := st.source.length
      if total = 0 then
        (.ok ⟨0, 0, 0, 0, 0⟩, st.target, [])
      else if !dryRun && !env.ddlOk then
        (.error (.migrationFailed "DDL failed"), st.target, [])
      else
        let db0 := if dryRun then st.target else createPostgreSQLTables st.target
        let r := migrateLoop env st.source dryRun st.batchSize 0 0 ⟨0, 0, 0⟩ db0
        match r.1 with
        | .ok acc =>
          (.ok ⟨total, acc.migratedEntries, acc.skippedEntries, acc.errors, 0⟩,
            r.2.1, r.2.2)
        | .error c => (.error (.migrationFailed c), r.2.1, r.2.2)
    else
      (.error (.migrationFailed "count failed"), st.target, [])
  else
    (.error .notInitialized, st.target, [])

/-- Result shape of `verifyMigration`. The source field `match` is a Lean
keyword, rendered here as `countsMatch`. -/
structure VerifyResult where
  sqliteCount : Nat
  postgresCount : Nat
  countsMatch : Bool
  sampleVerification : Bool
deriving DecidableEq, Repr

/-- The per-sample loop of `verifySampleEntries` (part_000 lines 383–403):
for each sample row, SELECT it by id from PostgreSQL (a failing SELECT throws,
which the enclosing catch turns into `false`), fail on a missing id, fail on an
`agent_id`/`session_id`/`content` mismatch; all samples passing yields `true`. -/
def checkSamples (env : Env) (tbl : List MemoryEntry) :
    List RawRow → Nat → Bool
  | [], _ => true
  | r :: rs, i =>
    if env.sampleLookupOk i then
      match tbl.find? (fun e => e.id == r.id) with
      | none => false
      | some e =>
        if e.agentId == r.agent_id && e.sessionId == r.session_id
            && e.content == r.content then
          checkSamples env tbl rs (i + 1)
        else
          false
    else
      false

/-- `verifySampleEntries` (part_000 lines 367–410): returns `false` when not
initialized; the whole body is in a try/catch returning `false` on any error
(modelled by the `sampleFetchOk` and `sampleLookupOk` oracles); the sample is
the first 5 source rows in timestamp order; an empty sample verifies to `true`. -/
def verifySampleEntries (env : Env) (st : MigratorState) : Bool :=
  if st.initialized then
    if env.sampleFetchOk then
      checkSamples env st.target.table (st.source.take 5) 0
    else
      false
  else
    false

/-- `verifyMigration` (part_000 lines 155–186): throws when not initialized;
the SQLite and PostgreSQL COUNT probes are NOT inside any try/catch, so their
failures propagate to the caller; only then is the sample verification (which
never throws) run, and the result record built with
`match = sqliteCount === postgresCount`. -/
def verifyMigration (env : Env) (st : MigratorState) :
    Except MErr VerifyResult :=
  if st.initialized then
    if env.srcCountOk then
      if env.pgCountOk then
        .ok {
          sqliteCount := st.source.length
          postgresCount := st.target.table.length
          countsMatch := st.source.length == st.target.table.length
          sampleVerification := verifySampleEntries env st
        }
      else
        .error (.driverError "postgres count failed")
    else
      .error (.driverError "sqlite count failed")
  else
    .error .notInitialized

/-! ## PostgreSQL backend (`src/src/memory/backends/postgresql.ts`) -/

/-- Backend errors (`MemoryBackendError`). -/
inductive BErr where
  | notInitialized : BErr
  | opFailed (msg : String) : BErr
deriving DecidableEq, Repr

/-- `PostgreSQLBackend` state: `pool` models the connection pool being present;
`db` is the shared PostgreSQL database. -/
structure Backend where
  pool : Bool
  db : PgDb
deriving Repr

/-- `MemoryQuery` as consumed by `PostgreSQLBackend.query` (lines 155–229).
All fields optional; `startTime`/`endTime` are `Date`s modelled as naturals.
The source field `namespace` is a Lean keyword, rendered here as `nspace`. -/
structure MemoryQuery where
  agentId : Option String := none
  sessionId : Option String := none
  type : Option String := none
  startTime : Option Nat := none
  endTime : Option Nat := none
  search : Option String := none
  tags : Option (List String) := none
  nspace : Option String := none
  limit : Option Nat := none
  offset : Option Nat := none
deriving Repr

/-- JS truthiness of an optional string: `undefined` and `""` are falsy. -/
def truthyStr : Option String → Bool
  | none => false
  | some s => !s.isEmpty

/-- JS truthiness of an optional number: `undefined` and `0` are falsy. -/
def truthyNat : Option Nat → Bool
  | none => false
  | some n => n != 0

/-- JS truthiness of an optional `Date`: a `Date` object is always truthy. -/
def truthyDate : Option Nat → Bool
  | none => false
  | some _ => true

/-- `tags::text` — the JSON text rendering of the tags array, used by the
`search` condition's `tags::text ILIKE '%s%'`. -/
def tagsText (tags : List String) : String :=
  "[" ++ String.intercalate ", " (tags.map (fun t => "\x22" ++ t ++ "\x22")) ++ "]"

/-- Case-insensitive `ILIKE '%pat%'` containment (assuming a pattern without
SQL wildcards). -/
def ilikeContains (s pat : String) : Bool :=
  s.toLower.containsSubstr pat.toLower.toSubstring

/-- The WHERE clause built by `query` (lines 160–208): one condition per
truthy filter field, AND-combined; `tags` conditions are OR-combined among
themselves; `namespace` compares `metadata->>'namespace'` (NULL when metadata
is absent or has no such key, and NULL never equals a parameter). -/
def matchesQuery (q : MemoryQuery) (e : MemoryEntry) : Bool :=
  (if truthyStr q.agentId then e.agentId == q.agentId.getD "" else true) &&
  (if truthyStr q.sessionId then e.sessionId == q.sessionId.getD "" else true) &&
  (if truthyStr q.type then e.type == q.type.getD "" else true) &&
  (if truthyDate q.startTime then q.startTime.getD 0 ≤ e.timestamp else true) &&
  (if truthyDate q.endTime then e.timestamp ≤ q.endTime.getD 0 else true) &&
  (if truthyStr q.search then
      ilikeContains e.content (q.search.getD "")
        || ilikeContains (tagsText e.tags) (q.search.getD "")
    else true) &&
  (match q.tags with
    | some ts => if ts.isEmpty then true else ts.any (fun t => e.tags.contains t)
    | none => true) &&
  (if truthyStr q.nspace then
      (e.metadata.bind (fun m => m.lookup "namespace")) == some (q.nspace.getD "")
    else true)

/-- `ORDER BY timestamp DESC`. -/
def sortByTimestampDesc (l : List MemoryEntry) : List MemoryEntry :=
  l.mergeSort (fun a b => Nat.ble b.timestamp a.timestamp)

/-- The pure result-set semantics of `query`: filter, order by timestamp
descending, then apply `OFFSET`/`LIMIT` — each only when its field is truthy
(SQL applies OFFSET before LIMIT regardless of clause order). -/
def runQuery (q : MemoryQuery) (tbl : List MemoryEntry) : List MemoryEntry :=
  let ordered := sortByTimestampDesc (tbl.filter (matchesQuery q))
  let afterOffset := if truthyNat q.offset then ordered.drop (q.offset.getD 0)
    else ordered
  if truthyNat q.limit then afterOffset.take (q.limit.getD 0) else afterOffset

/-- `PostgreSQLBackend.store` (lines 71–114): pool check, then one upsert
statement; a driver failure (oracle `ok`) is rethrown as `MemoryBackendError`. -/
def store (ok : Bool) (entry : MemoryEntry) (b : Backend) :
    Except BErr Backend :=
  if b.pool then
    if ok then
      .ok { b with db := { b.db with table := upsertOne b.db.table entry } }
    else
      .error (.opFailed "Failed to store entry")
  else
    .error .notInitialized

/-- `PostgreSQLBackend.update` (lines 136–139): delegates to `store`
unconditionally — "PostgreSQL UPSERT handles updates"; the id argument is
ignored. -/
def update (ok : Bool) (_id : String) (entry : MemoryEntry) (b : Backend) :
    Except BErr Backend :=
  store ok entry b

/-- `PostgreSQLBackend.query` (lines 155–229): pool check, then the SELECT
whose result set is `runQuery`; a driver failure is rethrown. -/
def query (ok : Bool) (q : MemoryQuery) (b : Backend) :
    Except BErr (List MemoryEntry) :=
  if b.pool then
    if ok then .ok (runQuery q b.db.table)
    else .error (.opFailed "Failed to query entries")
  else
    .error .notInitialized

/-- `PostgreSQLBackend.getAllEntries` (lines 231–244): full scan ordered by
timestamp descending. -/
def getAllEntries (ok : Bool) (b : Backend) : Except BErr (List MemoryEntry) :=
  if b.pool then
    if ok then .ok (sortByTimestampDesc b.db.table)
    else .error (.opFailed "Failed to get all entries")
  else
    .error .notInitialized

/-! ## Helper lemmas -/

theorem length_filterMap_eq_countP {α β : Type} (f : α → Option β) (l : List α) :
    (l.filterMap f).length = l.countP (fun a => (f a).isSome) := by
  induction l with
  | nil => simp
  | cons a t ih =>
    cases h : f a <;> simp [List.filterMap_cons, h, List.countP_cons, ih]

theorem convert_toOption_isSome (r : RawRow) :
    ((convertEntry r).toOption).isSome = validB r := by
  unfold convertEntry validB
  cases h : validateEntry r <;> simp [h, Except.toOption]

theorem convert_toOption_isNone (r : RawRow) :
    ((convertEntry r).toOption).isNone = !validB r := by
  unfold convertEntry validB
  cases h : validateEntry r <;> simp [h, Except.toOption]

theorem countP_add_countP_not {α : Type} (p : α → Bool) (l : List α) :
    l.countP p + l.countP (fun a => !p a) = l.length := by
  induction l with
  | nil => simp
  | cons a t ih =>
    cases h : p a <;> simp [List.countP_cons, h] <;> omega

theorem dryFold (l : List RawRow) : ∀ s : BatchTotals,
    l.foldl dryStep s =
      ⟨s.migratedEntries + l.countP (fun r => validB r),
        s.skippedEntries + l.countP (fun r => !validB r),
        s.errors⟩ := by
  induction l with
  | nil => intro s; simp
  | cons r t ih =>
    intro s
    rw [List.foldl_cons, ih]
    unfold dryStep
    cases h : validB r <;> simp [List.countP_cons, h] <;> omega

theorem migrateBatch_dry (batch : List RawRow) (ok : Bool) (db : PgDb) :
    migrateBatch batch true ok db =
      (⟨batch.countP (fun r => validB r), batch.countP (fun r => !validB r), 0⟩,
        db) := by
  simp [migrateBatch, dryFold]

theorem migrateBatch_skipped (batch : List RawRow) (d ok : Bool) (db : PgDb) :
    (migrateBatch batch d ok db).1.skippedEntries =
      batch.countP (fun r => !validB r) := by
  cases d
  · unfold migrateBatch
    have hc : batch.countP (fun r => ((convertEntry r).toOption).isNone) =
        batch.countP (fun r => !validB r) :=
      List.countP_congr (fun r _ => by rw [convert_toOption_isNone])
    simp only [Bool.false_eq_true, if_false]
    split
    · simp [hc]
    · split <;> simp [hc]
  · rw [migrateBatch_dry]

theorem migrateBatch_mig_add_err (batch : List RawRow) (d ok : Bool) (db : PgDb) :
    (migrateBatch batch d ok db).1.migratedEntries +
        (migrateBatch batch d ok db).1.errors =
      batch.countP (fun r => validB r) := by
  have hlen : (batch.filterMap (fun r => (convertEntry r).toOption)).length =
      batch.countP (fun r => validB r) := by
    rw [length_filterMap_eq_countP]
    exact List.countP_congr (fun r _ => by rw [convert_toOption_isSome])
  cases d
  · unfold migrateBatch
    simp only [Bool.false_eq_true, if_false]
    split
    · next hempty =>
      rw [List.isEmpty_iff] at hempty
      rw [hempty] at hlen
      simp only [List.length_nil] at hlen
      simp [← hlen]
    · split <;> simp [hlen]
  · rw [migrateBatch_dry]
    simp

theorem migrateBatch_sum (batch : List RawRow) (d ok : Bool) (db : PgDb) :
    (migrateBatch batch d ok db).1.sum = batch.length := by
  unfold BatchTotals.sum
  have h1 := migrateBatch_skipped batch d ok db
  have h2 := migrateBatch_mig_add_err batch d ok db
  have h3 := countP_add_countP_not (fun r => validB r) batch
  omega

theorem migrateBatch_dry_db (batch : List RawRow) (ok : Bool) (db : PgDb) :
    (migrateBatch batch true ok db).2 = db := by
  rw [migrateBatch_dry]

/-- Fuel-driven reference computation of the page sizes produced by offset
pagination over `n` rows with page size `b` (fuel-first so that it reduces in
the kernel). -/
def pageSizesF : Nat → Nat → Nat → List Nat
  | 0, _, _ => []
  | fuel + 1, n, b =>
    if n = 0 then []
    else if b = 0 then []
    else min b n :: pageSizesF fuel (n - b) b

/-- The page sizes of an offset-paginated scan of `n` rows with page size `b`. -/
def pageSizes (n b : Nat) : List Nat :=
  pageSizesF n n b

theorem pageSizesF_congr : ∀ f₁ f₂ n b, n ≤ f₁ → n ≤ f₂ →
    pageSizesF f₁ n b = pageSizesF f₂ n b := by
  intro f₁
  induction f₁ with
  | zero =>
    intro f₂ n b h1 _
    have hn : n = 0 := Nat.le_zero.mp h1
    subst hn
    cases f₂ <;> simp [pageSizesF]
  | succ g ih =>
    intro f₂ n b h1 h2
    cases f₂ with
    | zero =>
      have hn : n = 0 := Nat.le_zero.mp h2
      subst hn
      simp [pageSizesF]
    | succ h =>
      unfold pageSizesF
      by_cases hn : n = 0
      · simp [hn]
      · by_cases hb : b = 0
        · simp [hn, hb]
        · simp only [hn, hb, if_false]
          have hgoal : pageSizesF g (n - b) b = pageSizesF h (n - b) b := by
            rw [ih h (n - b) b (by omega) (by omega)]
          rw [hgoal]

theorem pageSizes_eq (n b : Nat) :
    pageSizes n b =
      if n = 0 then [] else if b = 0 then [] else min b n :: pageSizes (n - b) b := by
  unfold pageSizes
  cases n with
  | zero => simp [pageSizesF]
  | succ m =>
    conv_lhs => rw [pageSizesF]
    by_cases hb : b = 0
    · simp [hb]
    · simp only [Nat.succ_ne_zero, if_false, hb]
      rw [pageSizesF_congr m (m + 1 - b) (m + 1 - b) b (by omega) (by omega)]

/-- A dry run's batch loop never touches the target database, on every control
path (success, empty page, fetch failure). -/
theorem migrateLoop_dry_db (env : Env) (src : List RawRow) (b : Nat) :
    ∀ n offset i acc db, src.length - offset ≤ n →
      (migrateLoop env src true b offset i acc db).2.1 = db := by
  intro n
  induction n with
  | zero =>
    intro offset i acc db hle
    rw [migrateLoop]
    have h : ¬ offset < src.length := by omega
    simp [h]
  | succ n ih =>
    intro offset i acc db hle
    rw [migrateLoop]
    by_cases h : offset < src.length
    · cases hf : env.fetchOk i
      · simp [h, hf]
      · by_cases hb : ((src.drop offset).take b).isEmpty
        · simp [h, hf, hb]
        · have hbpos : 0 < b := by
            rcases Nat.eq_zero_or_pos b with h0 | h0
            · subst h0; simp at hb
            · exact h0
          simp only [h, dif_pos, hf, if_true, hb, dif_neg, not_false_iff]
          rw [migrateBatch_dry_db]
          exact ih (offset + b) (i + 1) _ db (by omega)
    · simp [h]

/-- When every page fetch succeeds and the page size is positive, the batch
loop runs to completion: it returns `ok`, its trace is exactly the offset
pagination's page sizes, and the accumulated per-row counters sum to the
number of remaining source rows — no row lost or double counted across batch
boundaries, regardless of write failures and row validity. -/
theorem migrateLoop_complete (env : Env) (src : List RawRow) (d : Bool) (b : Nat)
    (hf : ∀ j, env.fetchOk j = true) (hb : 0 < b) :
    ∀ n offset i acc db, src.length - offset ≤ n →
      ∃ s db', migrateLoop env src d b offset i acc db =
          (.ok s, db', pageSizes (src.length - offset) b) ∧
        s.sum = acc.sum + (src.length - offset) := by
  intro n
  induction n with
  | zero =>
    intro offset i acc db hle
    have h : ¬ offset < src.length := by omega
    have h0 : src.length - offset = 0 := by omega
    rw [migrateLoop]
    refine ⟨acc, db, ?_, by omega⟩
    rw [pageSizes_eq]
    simp [h, h0]
  | succ n ih =>
    intro offset i acc db hle
    by_cases h : offset < src.length
    · have hnonempty : ¬ ((src.drop offset).take b).isEmpty := by
        rw [List.isEmpty_iff, ← List.length_eq_zero, List.length_take,
          List.length_drop]
        omega
      rw [migrateLoop]
      simp only [h, dif_pos, hf i, if_true, hnonempty, dif_neg, not_false_iff]
      obtain ⟨s, db', heq, hsum⟩ := ih (offset + b) (i + 1)
        (acc.add (migrateBatch ((src.drop offset).take b) d (env.writeOk i) db).1)
        (migrateBatch ((src.drop offset).take b) d (env.writeOk i) db).2
        (by omega)
      refine ⟨s, db', ?_, ?_⟩
      · rw [heq]
        have hlen : ((src.drop offset).take b).length = min b (src.length - offset) := by
          rw [List.length_take, List.length_drop]
        rw [pageSizes_eq (src.length - offset) b]
        have h1 : ¬ src.length - offset = 0 := by omega
        have h2 : ¬ b = 0 := by omega
        simp only [h1, h2, if_false]
        rw [hlen]
        have h3 : src.length - (offset + b) = src.length - offset - b := by omega
        rw [h3]
        simp
      · rw [hsum]
        have hsum2 : (acc.add
            (migrateBatch ((src.drop offset).take b) d (env.writeOk i) db).1).sum =
            acc.sum + min b (src.length - offset) := by
          unfold BatchTotals.add BatchTotals.sum
          have := migrateBatch_sum ((src.drop offset).take b) d (env.writeOk i) db
          unfold BatchTotals.sum at this
          rw [List.length_take, List.length_drop] at this
          simp only
          omega
        rw [hsum2]
        omega
    · have h0 : src.length - offset = 0 := by omega
      rw [migrateLoop]
      refine ⟨acc, db, ?_, by omega⟩
      rw [pageSizes_eq]
      simp [h, h0]

/-! ## Concrete fixtures -/

/-- A well-formed source row. -/
def rowOkA : RawRow :=
  { id := "a", agent_id := "ag", session_id := "s", type := "t", content := "c",
    context := [], timestamp := 1, tags := [], version := 1, parent_id := none,
    metadata := none }

/-- A source row whose `content` is empty (JS-falsy), failing validation. -/
def rowNoContent : RawRow := { rowOkA with id := "b", content := "" }

def dbEmpty : PgDb := ⟨[], 0⟩

/-- Environment in which every external operation succeeds. -/
def envAllOk : Env :=
  ⟨fun _ => true, fun _ => true, true, true, true, true, true, fun _ => true⟩

/-- An uninitialized migrator. -/
def stUninit : MigratorState := ⟨false, [rowOkA], dbEmpty, 1000⟩

/-! ## Claims -/

/-- C1: for every static source table with `totalEntries = 2500` and
`batchSize = 1000`, a run in which every page fetch succeeds (so the run
completes without a whole-run exception) processes exactly 3 batches of sizes
1000, 1000, 500, and `migratedEntries + skippedEntries + errors = totalEntries`
— regardless of dry-run mode, row validity, and batch-write failures. -/
theorem migrate_2500_three_batches (env : Env) (st : MigratorState) (d : Bool)
    (hinit : st.initialized = true) (hlen : st.source.length = 2500)
    (hbs : st.batchSize = 1000) (hcnt : env.runCountOk = true)
    (hddl : env.ddlOk = true) (hf : ∀ j, env.fetchOk j = true) :
    ∃ stats db', migrate env st d = (.ok stats, db', [1000, 1000, 500]) ∧
      stats.totalEntries = 2500 ∧
      stats.migratedEntries + stats.skippedEntries + stats.errors =
        stats.totalEntries := by
  obtain ⟨s, db', heq, hsum⟩ := migrateLoop_complete env st.source d st.batchSize
    hf (by omega) st.source.length 0 0 ⟨0, 0, 0⟩
    (if d then st.target else createPostgreSQLTables st.target) (by omega)
  have hne : ¬ st.source.length = 0 := by omega
  have hpage : pageSizes (st.source.length - 0) st.batchSize = [1000, 1000, 500] := by
    rw [hlen, hbs]
    decide
  unfold migrate
  rw [hinit, hcnt]
  simp only [if_true, hne, if_false, hddl, Bool.not_true, Bool.and_false,
    Bool.false_eq_true]
  rw [heq, hpage]
  refine ⟨⟨st.source.length, s.migratedEntries, s.skippedEntries, s.errors, 0⟩,
    db', rfl, hlen, ?_⟩
  show s.migratedEntries + s.skippedEntries + s.errors = st.source.length
  unfold BatchTotals.sum at hsum
  simp only at hsum
  omega

/-- C2: `migrate(dryRun=true)` never mutates the target — the target database
(and hence `getAllEntries` on it) is identical before and after, and no schema
DDL is executed — on every control path, including failing ones. -/
theorem migrate_dryRun_preserves_target (env : Env) (st : MigratorState) :
    (migrate env st true).2.1 = st.target ∧
    getAllEntries true ⟨true, (migrate env st true).2.1⟩ =
      getAllEntries true ⟨true, st.target⟩ ∧
    (migrate env st true).2.1.ddlRuns = st.target.ddlRuns := by
  have hdb : (migrate env st true).2.1 = st.target := by
    unfold migrate
    by_cases hinit : st.initialized = true
    · by_cases hcnt : env.runCountOk = true
      · by_cases h0 : st.source.length = 0
        · simp [hinit, hcnt, h0]
        · have hpres : (migrateLoop env st.source true st.batchSize 0 0
              ⟨0, 0, 0⟩ st.target).2.1 = st.target :=
            migrateLoop_dry_db env st.source st.batchSize st.source.length 0 0
              ⟨0, 0, 0⟩ st.target (by omega)
          rcases hL : migrateLoop env st.source true st.batchSize 0 0
            ⟨0, 0, 0⟩ st.target with ⟨res, db2, tr⟩
          rw [hL] at hpres
          simp only at hpres
          rw [hinit, hcnt]
          simp only [if_true, h0, if_false, Bool.not_true, Bool.false_and,
            Bool.false_eq_true, hL]
          cases res <;> simp [hpres]
      · simp [hinit, hcnt]
    · simp [hinit]
  exact ⟨hdb, by rw [hdb], by rw [hdb]⟩

/-- C9: calling `migrate` on a migrator whose `initialize` has not completed
fails with the not-initialized error before any source read (empty batch
trace) or target write (target unchanged). -/
theorem migrate_uninitialized (env : Env) (st : MigratorState) (d : Bool)
    (h : st.initialized = false) :
    migrate env st d = (.error .notInitialized, st.target, []) := by
  unfold migrate
  rw [h]
  simp

/-- C9 witness: a concrete uninitialized migrator. -/
theorem migrate_uninitialized_witness :
    stUninit.initialized = false ∧
    migrate envAllOk stUninit true =
      (.error .notInitialized, stUninit.target, []) :=
  ⟨rfl, migrate_uninitialized envAllOk stUninit true rfl⟩

/-- A concrete static source table of 2500 rows. -/
def st2500 : MigratorState := ⟨true, List.replicate 2500 rowOkA, dbEmpty, 1000⟩

/-- C1 witness: the theorem instantiated at a concrete 2500-row source. -/
theorem migrate_2500_three_batches_witness :
    st2500.initialized = true ∧ st2500.source.length = 2500 ∧
    st2500.batchSize = 1000 ∧ envAllOk.runCountOk = true ∧
    envAllOk.ddlOk = true ∧ (∀ j, envAllOk.fetchOk j = true) ∧
    (∃ stats db',
      migrate envAllOk st2500 false = (.ok stats, db', [1000, 1000, 500]) ∧
      stats.totalEntries = 2500 ∧
      stats.migratedEntries + stats.skippedEntries + stats.errors =
        stats.totalEntries) :=
  have hlen : st2500.source.length = 2500 := List.length_replicate 2500 rowOkA
  ⟨rfl, hlen, rfl, rfl, rfl, fun _ => rfl,
    migrate_2500_three_batches envAllOk st2500 false rfl hlen rfl
      rfl rfl (fun _ => rfl)⟩

/-- C5: a source row whose `content` is missing/empty fails validation, so in
both dry-run and live modes it is counted in `skippedEntries` (which counts
exactly the invalid rows of the batch) and never in `migratedEntries` or
`errors` (which together count exactly the valid rows); `migrateBatch` still
returns normally. -/
theorem migrateBatch_missing_content (batch : List RawRow) (d ok : Bool)
    (db : PgDb) (r : RawRow) (_hr : r ∈ batch) (hc : r.content = "") :
    validB r = false ∧
    (migrateBatch batch d ok db).1.skippedEntries =
      batch.countP (fun x => !validB x) ∧
    (migrateBatch batch d ok db).1.migratedEntries +
        (migrateBatch batch d ok db).1.errors =
      batch.countP (fun x => validB x) ∧
    (migrateBatch batch d ok db).1.migratedEntries +
        (migrateBatch batch d ok db).1.skippedEntries +
        (migrateBatch batch d ok db).1.errors =
      batch.length := by
  have hsum := migrateBatch_sum batch d ok db
  unfold BatchTotals.sum at hsum
  refine ⟨?_, migrateBatch_skipped batch d ok db,
    migrateBatch_mig_add_err batch d ok db, by omega⟩
  have hce : r.content.isEmpty = true := by rw [hc]; rfl
  unfold validB validateEntry
  simp [hce, Except.toOption]

/-- C5 witness: a batch containing a concrete content-less row, live mode with
a failing write. -/
theorem migrateBatch_missing_content_witness :
    rowNoContent ∈ [rowOkA, rowNoContent] ∧ rowNoContent.content = "" ∧
    (validB rowNoContent = false ∧
      (migrateBatch [rowOkA, rowNoContent] false false dbEmpty).1.skippedEntries =
        ([rowOkA, rowNoContent] : List RawRow).countP (fun x => !validB x) ∧
      (migrateBatch [rowOkA, rowNoContent] false false dbEmpty).1.migratedEntries +
          (migrateBatch [rowOkA, rowNoContent] false false dbEmpty).1.errors =
        ([rowOkA, rowNoContent] : List RawRow).countP (fun x => validB x) ∧
      (migrateBatch [rowOkA, rowNoContent] false false dbEmpty).1.migratedEntries +
          (migrateBatch [rowOkA, rowNoContent] false false dbEmpty).1.skippedEntries +
          (migrateBatch [rowOkA, rowNoContent] false false dbEmpty).1.errors =
        ([rowOkA, rowNoContent] : List RawRow).length) :=
  ⟨by simp, rfl,
    migrateBatch_missing_content [rowOkA, rowNoContent] false false dbEmpty
      rowNoContent (by simp) rfl⟩

/-- C3 counterexample: a live batch of 2 rows, one of which fails conversion,
whose write fails: the code attributes 1 row (the write set), not the entire
batch's 2 rows, to `errors`. -/
theorem migrateBatch_writeFail_counterexample :
    (migrateBatch [rowOkA, rowNoContent] false false dbEmpty).1.errors = 1 ∧
    ([rowOkA, rowNoContent] : List RawRow).length = 2 ∧
    (migrateBatch [rowOkA, rowNoContent] false false dbEmpty).1.errors ≠
      ([rowOkA, rowNoContent] : List RawRow).length := by
  refine ⟨?_, rfl, ?_⟩ <;> decide

/-- C3 amended: in live mode, when the batch write fails, exactly the write
set's row count (the rows surviving conversion) is attributed to `errors`,
conversion failures stay in `skippedEntries`, nothing is attributed to
`migratedEntries`, and the target is left unchanged — the failure is
batch-scoped (`migrateBatch` returns normally rather than raising). -/
theorem migrateBatch_writeFail_accounting (batch : List RawRow) (db : PgDb) :
    (migrateBatch batch false false db).1.migratedEntries = 0 ∧
    (migrateBatch batch false false db).1.errors =
      batch.countP (fun r => validB r) ∧
    (migrateBatch batch false false db).1.skippedEntries =
      batch.countP (fun r => !validB r) ∧
    (migrateBatch batch false false db).2 = db := by
  have hmig : (migrateBatch batch false false db).1.migratedEntries = 0 := by
    unfold migrateBatch
    simp only [Bool.false_eq_true, if_false]
    split
    · rfl
    · rfl
  have hdb : (migrateBatch batch false false db).2 = db := by
    unfold migrateBatch
    simp only [Bool.false_eq_true, if_false]
    split
    · rfl
    · rfl
  have herr := migrateBatch_mig_add_err batch false false db
  rw [hmig] at herr
  simp only [Nat.zero_add] at herr
  exact ⟨hmig, herr, migrateBatch_skipped batch false false db, hdb⟩

/-! ## C6: what a failed run's error carries -/

theorem migrateLoop_fetch_fail (env : Env) (src : List RawRow) (d : Bool)
    (b offset i : Nat) (acc : BatchTotals) (db : PgDb)
    (h : offset < src.length) (hf : env.fetchOk i = false) :
    migrateLoop env src d b offset i acc db =
      (.error "page fetch failed", db, []) := by
  rw [migrateLoop]
  simp [h, hf]

theorem migrateLoop_step (env : Env) (src : List RawRow) (d : Bool)
    (b offset i : Nat) (acc : BatchTotals) (db : PgDb)
    (h : offset < src.length) (hf : env.fetchOk i = true)
    (hne : ¬ ((src.drop offset).take b).isEmpty) :
    migrateLoop env src d b offset i acc db =
      ((migrateLoop env src d b (offset + b) (i + 1)
          (acc.add (migrateBatch ((src.drop offset).take b) d (env.writeOk i) db).1)
          (migrateBatch ((src.drop offset).take b) d (env.writeOk i) db).2).1,
        (migrateLoop env src d b (offset + b) (i + 1)
          (acc.add (migrateBatch ((src.drop offset).take b) d (env.writeOk i) db).1)
          (migrateBatch ((src.drop offset).take b) d (env.writeOk i) db).2).2.1,
        ((src.drop offset).take b).length ::
          (migrateLoop env src d b (offset + b) (i + 1)
            (acc.add (migrateBatch ((src.drop offset).take b) d (env.writeOk i) db).1)
            (migrateBatch ((src.drop offset).take b) d (env.writeOk i) db).2).2.2) := by
  rw [migrateLoop]
  simp [h, hf, hne]

/-- A two-row source in timestamp order. -/
def srcTwo : List RawRow := [rowOkA, { rowOkA with id := "a2", timestamp := 2 }]

/-- An initialized migrator over `srcTwo` with batch size 1. -/
def stTwo : MigratorState := ⟨true, srcTwo, dbEmpty, 1⟩

/-- The converted form of `rowOkA`. -/
def entA : MemoryEntry :=
  { id := "a", agentId := "ag", sessionId := "s", type := "t", content := "c",
    context := [], timestamp := 1, tags := [], version := 1, parentId := none,
    metadata := none }

/-- Page fetch of batch 1 fails (after batch 0 has been written). -/
def envFailAt1 : Env := { envAllOk with fetchOk := fun j => j == 0 }

/-- Page fetch of batch 0 fails (nothing written). -/
def envFailAt0 : Env := { envAllOk with fetchOk := fun _ => false }

/-- When the batch loop fails, `migrate` wraps the cause in
`MemoryError('Migration failed', {error})` and returns the loop's final target
and trace. -/
theorem migrate_loop_error (env : Env) (st : MigratorState) (d : Bool)
    (c : String) (db' : PgDb) (tr : List Nat)
    (hinit : st.initialized = true) (hcnt : env.runCountOk = true)
    (h0 : ¬ st.source.length = 0) (hddl : (!d && !env.ddlOk) = false)
    (hloop : migrateLoop env st.source d st.batchSize 0 0 ⟨0, 0, 0⟩
        (if d then st.target else createPostgreSQLTables st.target) =
      (.error c, db', tr)) :
    migrate env st d = (.error (.migrationFailed c), db', tr) := by
  unfold migrate
  rw [hinit, hcnt]
  simp only [if_true, h0, if_false, hddl, Bool.false_eq_true]
  rw [hloop]

theorem migrate_envFailAt1_eval :
    migrate envFailAt1 stTwo false =
      (.error (.migrationFailed "page fetch failed"), ⟨[entA], 1⟩, [1]) := by
  have hb0 : migrateBatch ((srcTwo.drop 0).take 1) false (envFailAt1.writeOk 0)
      ⟨[], 1⟩ = (⟨1, 0, 0⟩, ⟨[entA], 1⟩) := by decide
  have hl1 : migrateLoop envFailAt1 srcTwo false 1 (0 + 1) (0 + 1)
      (BatchTotals.add ⟨0, 0, 0⟩ ⟨1, 0, 0⟩) ⟨[entA], 1⟩ =
      (.error "page fetch failed", ⟨[entA], 1⟩, []) :=
    migrateLoop_fetch_fail envFailAt1 srcTwo false 1 (0 + 1) (0 + 1) _ _
      (by decide) (by decide)
  have hl0 : migrateLoop envFailAt1 srcTwo false 1 0 0 ⟨0, 0, 0⟩ ⟨[], 1⟩ =
      (.error "page fetch failed", ⟨[entA], 1⟩, [1]) := by
    rw [migrateLoop_step envFailAt1 srcTwo false 1 0 0 ⟨0, 0, 0⟩ ⟨[], 1⟩
      (by decide) (by decide) (by decide)]
    rw [hb0]
    rw [hl1]
    rfl
  exact migrate_loop_error envFailAt1 stTwo false "page fetch failed"
    ⟨[entA], 1⟩ [1] rfl rfl (by decide) rfl hl0

theorem migrate_envFailAt0_eval :
    migrate envFailAt0 stTwo false =
      (.error (.migrationFailed "page fetch failed"), ⟨[], 1⟩, []) := by
  have hl0 : migrateLoop envFailAt0 srcTwo false 1 0 0 ⟨0, 0, 0⟩ ⟨[], 1⟩ =
      (.error "page fetch failed", ⟨[], 1⟩, []) :=
    migrateLoop_fetch_fail envFailAt0 srcTwo false 1 0 0 _ _
      (by decide) (by decide)
  exact migrate_loop_error envFailAt0 stTwo false "page fetch failed"
    ⟨[], 1⟩ [] rfl rfl (by decide) rfl hl0

/-- C6 counterexample: two failed runs with different partial progress (one
migrated one batch before failing, the other nothing — observable in their
final targets) raise literally identical errors, so the raised
`MemoryError('Migration failed', { error })` cannot carry the partially
accumulated `MigrationStats`; the caller cannot observe how far the run got
from the error. -/
theorem migrate_error_no_stats_counterexample :
    (migrate envFailAt1 stTwo false).1 = (migrate envFailAt0 stTwo false).1 ∧
    (migrate envFailAt1 stTwo false).2.1 ≠ (migrate envFailAt0 stTwo false).2.1 := by
  rw [migrate_envFailAt1_eval, migrate_envFailAt0_eval]
  refine ⟨rfl, by decide⟩

/-- C6 amended: when `migrate` fails, the raised error is either the
not-initialized error or `MemoryError('Migration failed', {error})` wrapping
only the underlying cause — no `MigrationStats` context is attached; partial
progress survives only in the target's committed batches. -/
theorem migrate_error_carries_only_cause (env : Env) (st : MigratorState)
    (d : Bool) (e : MErr) (h : (migrate env st d).1 = .error e) :
    e = .notInitialized ∨ ∃ c, e = .migrationFailed c := by
  by_cases hinit : st.initialized = true
  · by_cases hcnt : env.runCountOk = true
    · by_cases h0 : st.source.length = 0
      · unfold migrate at h
        rw [hinit, hcnt] at h
        simp [h0] at h
      · by_cases hddl : (!d && !env.ddlOk) = true
        · unfold migrate at h
          rw [hinit, hcnt] at h
          simp [h0, hddl] at h
          exact Or.inr ⟨_, h.symm⟩
        · have hddl2 : (!d && !env.ddlOk) = false := by
            cases hv : (!d && !env.ddlOk)
            · rfl
            · exact absurd hv hddl
          unfold migrate at h
          rw [hinit, hcnt] at h
          simp [h0, hddl2] at h
          split at h
          · simp at h
          · simp at h
            exact Or.inr ⟨_, h.symm⟩
    · have hcnt2 : env.runCountOk = false := by
        cases hv : env.runCountOk
        · rfl
        · exact absurd hv hcnt
      unfold migrate at h
      rw [hinit, hcnt2] at h
      simp at h
      exact Or.inr ⟨_, h.symm⟩
  · have hinit2 : st.initialized = false := by
      cases hv : st.initialized
      · rfl
      · exact absurd hv hinit
    unfold migrate at h
    rw [hinit2] at h
    simp at h
    exact Or.inl h.symm

/-- C6 amended witness: the concrete failed run from the counterexample. -/
theorem migrate_error_carries_only_cause_witness :
    (migrate envFailAt0 stTwo false).1 =
      .error (.migrationFailed "page fetch failed") ∧
    ((MErr.migrationFailed "page fetch failed") = .notInitialized ∨
      ∃ c, (MErr.migrationFailed "page fetch failed") = .migrationFailed c) :=
  ⟨by rw [migrate_envFailAt0_eval],
    migrate_error_carries_only_cause envFailAt0 stTwo false _
      (by rw [migrate_envFailAt0_eval])⟩

/-! ## C4: verifyMigration's throw behaviour -/

/-- An environment in which the PostgreSQL COUNT probe fails. -/
def envPgCountFail : Env := { envAllOk with pgCountOk := false }

/-- An environment in which every per-sample SELECT fails (an internal error
during sample verification). -/
def envSampleFail : Env := { envAllOk with sampleLookupOk := fun _ => false }

/-- C4 counterexample: on an initialized migrator, a failing PostgreSQL COUNT
probe makes `verifyMigration` throw — the probe is outside any try/catch, so
not every internal error is reported as `sampleVerification = false`. -/
theorem verifyMigration_throws_counterexample :
    stTwo.initialized = true ∧
    verifyMigration envPgCountFail stTwo =
      .error (.driverError "postgres count failed") :=
  ⟨rfl, rfl⟩

/-- C4 amended: `verifyMigration` never throws provided the two COUNT probes
succeed; `match` is computed as `sourceCount == targetCount`, and errors
internal to the sample check are absorbed into `sampleVerification` (which is
total) rather than propagated. -/
theorem verifyMigration_ok_of_counts_ok (env : Env) (st : MigratorState)
    (hinit : st.initialized = true) (h1 : env.srcCountOk = true)
    (h2 : env.pgCountOk = true) :
    verifyMigration env st = .ok {
      sqliteCount := st.source.length
      postgresCount := st.target.table.length
      countsMatch := st.source.length == st.target.table.length
      sampleVerification := verifySampleEntries env st } := by
  unfold verifyMigration
  rw [hinit, h1, h2]
  simp

/-- C4 amended witness: even with every per-sample SELECT failing, the result
is an `ok` with the counts compared. -/
theorem verifyMigration_ok_of_counts_ok_witness :
    stTwo.initialized = true ∧ envSampleFail.srcCountOk = true ∧
    envSampleFail.pgCountOk = true ∧
    verifyMigration envSampleFail stTwo = .ok {
      sqliteCount := stTwo.source.length
      postgresCount := stTwo.target.table.length
      countsMatch := stTwo.source.length == stTwo.target.table.length
      sampleVerification := verifySampleEntries envSampleFail stTwo } :=
  ⟨rfl, rfl, rfl, verifyMigration_ok_of_counts_ok envSampleFail stTwo rfl rfl rfl⟩

/-! ## C7, C8, C10: the backend operations -/

/-- C7: `update(id, entry)` is the very same operation as `store(entry)` — an
upsert that never requires prior existence; from equal starting states the two
produce equal results on every path (including error paths). -/
theorem update_eq_store (ok : Bool) (id : String) (e : MemoryEntry)
    (b : Backend) :
    update ok id e b = store ok e b := rfl

/-- The C8 query: `{agentId: "a1", tags: ["x","y"]}`. -/
def q8 : MemoryQuery := { agentId := some "a1", tags := some ["x", "y"] }

theorem ble_timestamp_trans (a b c : MemoryEntry)
    (h1 : Nat.ble b.timestamp a.timestamp = true)
    (h2 : Nat.ble c.timestamp b.timestamp = true) :
    Nat.ble c.timestamp a.timestamp = true := by
  simp only [Nat.ble_eq] at *
  omega

theorem ble_timestamp_total (a b : MemoryEntry) :
    Nat.ble b.timestamp a.timestamp || Nat.ble a.timestamp b.timestamp := by
  rcases Nat.le_total b.timestamp a.timestamp with h | h <;>
    simp [Nat.ble_eq, h]

theorem matchesQuery_q8 (e : MemoryEntry) :
    matchesQuery q8 e =
      (e.agentId == "a1" && (e.tags.contains "x" || e.tags.contains "y")) := by
  simp [matchesQuery, q8, truthyStr, truthyDate,
    show ("a1".isEmpty : Bool) = false from rfl]

/-- C8: `query({agentId: "a1", tags: ["x","y"]})` succeeds on an initialized
backend and returns exactly the stored entries whose `agentId` is `"a1"` and
whose tag set contains `"x"` or `"y"` (a permutation of that filter — nothing
more, nothing less), ordered by `timestamp` descending. -/
theorem query_agentId_tags_spec (b : Backend) (hpool : b.pool = true) :
    ∃ res, query true q8 b = .ok res ∧
      res.Perm (b.db.table.filter (fun e =>
        e.agentId == "a1" && (e.tags.contains "x" || e.tags.contains "y"))) ∧
      res.Pairwise (fun a c => c.timestamp ≤ a.timestamp) ∧
      ∀ e, e ∈ res ↔ (e ∈ b.db.table ∧ e.agentId = "a1" ∧
        ("x" ∈ e.tags ∨ "y" ∈ e.tags)) := by
  have hq : query true q8 b = .ok (runQuery q8 b.db.table) := by
    unfold query
    rw [hpool]
    simp
  have hfc : b.db.table.filter (matchesQuery q8) =
      b.db.table.filter (fun e =>
        e.agentId == "a1" && (e.tags.contains "x" || e.tags.contains "y")) :=
    List.filter_congr (fun e _ => matchesQuery_q8 e)
  have hrun : runQuery q8 b.db.table =
      sortByTimestampDesc (b.db.table.filter (matchesQuery q8)) := rfl
  have hperm : (runQuery q8 b.db.table).Perm
      (b.db.table.filter (fun e =>
        e.agentId == "a1" && (e.tags.contains "x" || e.tags.contains "y"))) := by
    rw [hrun, ← hfc]
    exact List.mergeSort_perm _ _
  have hsorted : (runQuery q8 b.db.table).Pairwise
      (fun a c => c.timestamp ≤ a.timestamp) := by
    rw [hrun]
    refine List.Pairwise.imp ?_
      (@List.sorted_mergeSort MemoryEntry
        (fun a c => Nat.ble c.timestamp a.timestamp)
        ble_timestamp_trans ble_timestamp_total
        (b.db.table.filter (matchesQuery q8)))
    intro a c h
    exact Nat.le_of_ble_eq_true h
  refine ⟨runQuery q8 b.db.table, hq, hperm, hsorted, ?_⟩
  intro e
  rw [hperm.mem_iff, List.mem_filter]
  simp [List.contains, List.elem_eq_mem]

/-- A concrete backend store for the C8 witness. -/
def entQ : MemoryEntry :=
  { entA with id := "q", agentId := "a1", tags := ["y"], timestamp := 7 }

def bSample : Backend := ⟨true, ⟨[entA, entQ], 0⟩⟩

/-- C8 witness: the theorem instantiated at a concrete backend. -/
theorem query_agentId_tags_spec_witness :
    bSample.pool = true ∧
    (∃ res, query true q8 bSample = .ok res ∧
      res.Perm (bSample.db.table.filter (fun e =>
        e.agentId == "a1" && (e.tags.contains "x" || e.tags.contains "y"))) ∧
      res.Pairwise (fun a c => c.timestamp ≤ a.timestamp) ∧
      ∀ e, e ∈ res ↔ (e ∈ bSample.db.table ∧ e.agentId = "a1" ∧
        ("x" ∈ e.tags ∨ "y" ∈ e.tags))) :=
  ⟨rfl, query_agentId_tags_spec bSample rfl⟩

/-- C10: a falsy filter value is silently treated as absent — `agentId`,
`sessionId`, `type`, `search`, `namespace` equal to `""`, `limit = 0`
(unlimited, not zero rows) and `offset = 0` each yield the very same query as
omitting the field, so an empty string can never act as a match criterion. -/
theorem query_falsy_fields_no_constraint (ok : Bool) (q : MemoryQuery)
    (b : Backend) :
    query ok { q with agentId := some "" } b =
        query ok { q with agentId := none } b ∧
      query ok { q with sessionId := some "" } b =
        query ok { q with sessionId := none } b ∧
      query ok { q with type := some "" } b =
        query ok { q with type := none } b ∧
      query ok { q with search := some "" } b =
        query ok { q with search := none } b ∧
      query ok { q with nspace := some "" } b =
        query ok { q with nspace := none } b ∧
      query ok { q with limit := some 0 } b =
        query ok { q with limit := none } b ∧
      query ok { q with offset := some 0 } b =
        query ok { q with offset := none } b := by
  refine ⟨?_, ?_, ?_, ?_, ?_, ?_, ?_⟩ <;> rfl

end ClaudeFlow
